import Mathlib

/-!
Verification of the prompt pre-processing pipeline of
`ansible-ai-connect-service` (completion_stages/pre_process).

The implementation module itself is not part of the source snapshot; only
its test suite (`test_pre_process.py`), which fixes the observable
behaviour through concrete prompt/context fixtures, is present.  The
definitions below are therefore modelled from the natural-language
specification of the pipeline, with every behavioural choice pinned down
by the fixtures of the test suite.  Documents are embedded as lists of
lines (`List String`); per-line string manipulation is carried out on the
underlying character lists.
-/

namespace PreProcess

/-- The apostrophe character, used when quoting task names in diagnostics. -/
def aposChar : Char := Char.ofNat 39

/-- Apostrophe as a one-character string. -/
def apos : String := String.mk [aposChar]

/-- The double-quote character. -/
def dqChar : Char := Char.ofNat 34

/-- Is a character the blank character (space)? -/
def isSp (c : Char) : Bool := c = ' '

/-- Core of whitespace trimming on character lists: drop leading and
trailing spaces. -/
def trimCore (cs : List Char) : List Char :=
  ((cs.dropWhile isSp).reverse.dropWhile isSp).reverse

/-- Trim leading and trailing spaces of a line. -/
def trimSpaces (l : String) : String := String.mk (trimCore l.data)

/-- A line is blank when it consists of spaces only. -/
def isBlankLine (l : String) : Bool := l.data.all isSp

/-- Modelled from the spec: the final line of the prompt considered by the
multi-task validator and removed by the reconstructor is the last
non-blank line; it is inspected in trimmed form. -/
def finalTaskLine (ls : List String) : Option String :=
  ((ls.filter (fun l => ¬ isBlankLine l)).getLast?).map trimSpaces

/-- A (trimmed) line is a comment when it starts with a hash sign. -/
def isCommentLine (l : String) : Bool := l.data.head? = some '#'

/-- The content of a comment line: everything after the leading hash,
trimmed. -/
def commentBody (l : String) : String := String.mk (trimCore (l.data.drop 1))

/-- Split a character list on the multi-task delimiter character. -/
def splitAmp : List Char → List (List Char)
  | [] => [[]]
  | c :: t =>
    match splitAmp t with
    | [] => [[c]]
    | s :: rest => if c = '&' then [] :: s :: rest else (c :: s) :: rest

/-- Modelled from the spec: candidate task-name segments of a multi-task
comment line: split the comment body on the delimiter and trim each
segment. -/
def segmentsOf (l : String) : List String :=
  (splitAmp (commentBody l).data).map (fun cs => String.mk (trimCore cs))

/-- The 1-based column of the first colon of a segment. -/
def colonCol (s : String) : Int :=
  ((s.data.takeWhile (fun c => ¬ c = ':')).length : Int) + 1

/-- Format of a per-task diagnostic message. -/
def mkTaskMsg (seg : String) (col : Int) (msg : String) : String :=
  "Task " ++ apos ++ seg ++ apos ++ " invalid at column " ++ toString col
    ++ ". " ++ msg ++ "."

/-- Modelled from the spec: validation of one candidate segment, rules
checked in order: empty, leading hyphen, embedded colon. -/
def segDiag (s : String) : Option String :=
  if s.data = [] then some "Empty task definition."
  else if s.data.head? = some '-' then
    some (mkTaskMsg s 1 "Task starts with a hyphen")
  else if s.data.any (fun c => c = ':') then
    some (mkTaskMsg s (colonCol s) "Task contains a colon")
  else none

/-- All diagnostics of a multi-task comment line, in segment order. -/
def multitaskDiags (l : String) : List String :=
  (segmentsOf l).filterMap segDiag

/-- Outcome of the structural YAML scan of the document (the underlying
scanner of the YAML library); a scan error carries the scanner message
and the 0-based column of its problem mark. -/
structure ScanErr where
  problem : String
  markColumn : Nat
deriving DecidableEq

/-- Modelled from the spec: the multi-task validator.  A scanner-level
error of the structural parse is converted into a single diagnostic whose
column is the mark column relative to the fixed task-line prefix offset
(1-based); otherwise the per-segment rules run. -/
def validateMultiTask (taskPrefixLen : Nat) (scan : Option ScanErr)
    (l : String) : List String :=
  match scan with
  | some e =>
    [mkTaskMsg (commentBody l)
      ((e.markColumn : Int) - (taskPrefixLen : Int) + 1) e.problem]
  | none => multitaskDiags l

/-- Diagnostics produced for a whole prompt: the validator runs exactly
when the final (trimmed) line of the prompt is a comment. -/
def promptDiags (taskPrefixLen : Nat) (scan : Option ScanErr)
    (ls : List String) : List String :=
  match finalTaskLine ls with
  | some l => if isCommentLine l then validateMultiTask taskPrefixLen scan l else []
  | none => []

/-! ## Document reconstruction -/

/-- Number of leading spaces of a line. -/
def indentOf (l : String) : Nat := (l.data.takeWhile isSp).length

/-- Indent every line of a raw variable block by `n` spaces (the
`add_indents` helper of the test suite). -/
def indentBlock (n : Nat) (b : List String) : List String :=
  b.map (fun l => String.mk (List.replicate n ' ') ++ l)

/-- Remove the leading `---` document marker line, when present. -/
def removeMarker (ls : List String) : List String :=
  match ls with
  | [] => []
  | h :: t => if h = "---" then t else h :: t

/-- Modelled from the spec: remove the final line of the prompt (the
incomplete entry being written).  A trailing blank line means there is no
incomplete entry, so nothing is removed; this makes the transform stable
on its own output. -/
def removeTrailingLine (ls : List String) : List String :=
  match ls.getLast? with
  | some l => if isBlankLine l then ls else ls.dropLast
  | none => ls

/-- Strip the surrounding double quotes of a quoted task name on a
`- name:` line, keeping the indentation; any other line is unchanged. -/
def stripCore (cs : List Char) : List Char :=
  let ind := cs.takeWhile isSp
  let r := cs.dropWhile isSp
  let pat := "- name: ".data
  if (pat ++ [dqChar]).isPrefixOf r ∧ r.getLast? = some dqChar ∧
      pat.length + 2 ≤ r.length then
    ind ++ pat ++ (r.drop (pat.length + 1)).dropLast
  else cs

/-- Quote-stripping normalization of one line. -/
def stripQuotedName (l : String) : String := String.mk (stripCore l.data)

/-- Normalize every line of the reconstructed document. -/
def normalizeLines (ls : List String) : List String := ls.map stripQuotedName

/-! ## Additional context -/

/-- Raw variable blocks are YAML texts, embedded as lists of lines;
mappings of the additional-context payload are association lists in
insertion order. -/
abbrev VarBlock := List String

/-- The `playbookContext` member of the additional context. -/
structure PlaybookContext where
  varInfiles : List (String × VarBlock) := []
  includeVars : List (String × VarBlock) := []
deriving DecidableEq

/-- The `roleVars` member of the `roleContext`. -/
structure RoleVars where
  defaults : List (String × VarBlock) := []
  vars : List (String × VarBlock) := []
deriving DecidableEq

/-- The `roleContext` member of the additional context. -/
structure RoleContext where
  roleVars : RoleVars := {}
deriving DecidableEq

/-- The `standaloneTaskContext` member of the additional context. -/
structure StandaloneTaskContext where
  includeVars : List (String × VarBlock) := []
deriving DecidableEq

/-- The `additionalContext` metadata object. -/
structure AdditionalContext where
  playbookContext : PlaybookContext := {}
  roleContext : RoleContext := {}
  standaloneTaskContext : StandaloneTaskContext := {}
deriving DecidableEq

/-- The `ansibleFileType` metadata value, a closed variant with an
explicit fallback arm. -/
inductive FileType where
  | playbook
  | tasks_in_role
  | tasks
  | other
deriving DecidableEq

/-- Look up the raw block of a `vars_files:` entry in `varInfiles`. -/
def lookupBlock (pc : PlaybookContext) (e : String) : Option VarBlock :=
  (pc.varInfiles.find? (fun kv => kv.1 = e)).map (·.2)

/-- Top-level keys of a raw variable block: unindented, non-comment lines
holding a colon, up to the colon. -/
def blockTopKeys (b : VarBlock) : List String :=
  b.filterMap (fun l =>
    match l.data with
    | [] => none
    | c :: _ =>
      if isSp c ∨ c = '#' then none
      else if l.data.any (fun ch => ch = ':') then
        some (String.mk (l.data.takeWhile (fun ch => ¬ ch = ':')))
      else none)

/-! ## Playbook parsing -/

/-- One top-level entry of a pre-existing inline `vars:` mapping: its key
and its source lines (key line plus any attached comment and continuation
lines). -/
structure VarEntry where
  key : String
  lines : List String
deriving DecidableEq

/-- Key of an inline `vars:` entry line. -/
def lineKey (l : String) : String :=
  String.mk ((trimCore l.data).takeWhile (fun c => ¬ c = ':'))

/-- A parsed play of a playbook fragment. -/
structure Play where
  headLine : String := ""
  header : List String := []
  varsSec : Option (List VarEntry) := none
  varsFiles : Option (List String) := none
  secKey : Option String := none
  sec : List String := []
deriving DecidableEq

/-- Parsing mode while scanning the lines of one play. -/
inductive PMode where
  | header
  | inVars
  | inVarsFiles
  | inSection
deriving DecidableEq

/-- Accumulator of the play parser. -/
structure PlayAcc where
  header : List String := []
  varsSeen : Bool := false
  vp : List String := []
  ve : List VarEntry := []
  vc : Option VarEntry := none
  vfSeen : Bool := false
  vf : List String := []
  secKey : Option String := none
  sec : List String := []
  mode : PMode := PMode.header
deriving DecidableEq

/-- Close the inline-vars entry currently being collected. -/
def closeCur (a : PlayAcc) : PlayAcc :=
  match a.vc with
  | some e => { a with ve := a.ve ++ [e], vc := none }
  | none => a

/-- Does a line start a `vars_files:` entry (`    - ` prefix)? -/
def vfEntryOf (l : String) : Option String :=
  match l.data with
  | ' ' :: ' ' :: ' ' :: ' ' :: '-' :: ' ' :: rest => some (String.mk rest)
  | _ => none

/-- One step of the inline-vars body parser: an exactly-4-indented
non-comment line opens a new top-level entry; 4-indented comments are
attached to the next entry; deeper or blank lines continue the current
entry. -/
def varsStep (a : PlayAcc) (l : String) : PlayAcc :=
  if indentOf l = 4 ∧ ¬ isBlankLine l ∧ ¬ isCommentLine (trimSpaces l) then
    let a := closeCur a
    { a with vc := some { key := lineKey l, lines := a.vp ++ [l] }, vp := [] }
  else if indentOf l = 4 ∧ isCommentLine (trimSpaces l) then
    { a with vp := a.vp ++ [l] }
  else
    match a.vc with
    | some e => { a with vc := some { e with lines := e.lines ++ [l] } }
    | none => { a with vp := a.vp ++ [l] }

/-- One step of the play parser. -/
def playStep (a : PlayAcc) (l : String) : PlayAcc :=
  if l = "  vars:" then
    { closeCur a with varsSeen := true, mode := PMode.inVars }
  else if l = "  vars_files:" then
    { closeCur a with vfSeen := true, mode := PMode.inVarsFiles }
  else if l = "  tasks:" ∨ l = "  handlers:" then
    { closeCur a with secKey := some l, mode := PMode.inSection }
  else if a.mode = PMode.inSection then
    { a with sec := a.sec ++ [l] }
  else if indentOf l = 2 ∧ ¬ isBlankLine l then
    { closeCur a with header := a.header ++ [l], mode := PMode.header }
  else if a.mode = PMode.inVars then
    varsStep a l
  else if a.mode = PMode.inVarsFiles then
    match vfEntryOf l with
    | some e => { a with vf := a.vf ++ [e] }
    | none => a
  else
    { a with header := a.header ++ [l] }

/-- Parse the lines of one play. -/
def parsePlay : List String → Play
  | [] => {}
  | h :: t =>
    let a := closeCur (t.foldl playStep {})
    { headLine := h
      header := a.header
      varsSec := if a.varsSeen then some a.ve else none
      varsFiles := if a.vfSeen then some a.vf else none
      secKey := a.secKey
      sec := a.sec }

/-- Does a line open a new play (a top-level sequence item)? -/
def startsPlay (l : String) : Bool :=
  match l.data with
  | '-' :: ' ' :: _ => true
  | _ => false

/-- Accumulator of the play splitter. -/
structure SplitAcc where
  pre : List String := []
  plays : List (List String) := []
  cur : Option (List String) := none
deriving DecidableEq

/-- Close the play currently being collected. -/
def closePlay (a : SplitAcc) : SplitAcc :=
  match a.cur with
  | some c => { a with plays := a.plays ++ [c], cur := none }
  | none => a

/-- Split a playbook fragment into its preamble and the line groups of
its plays. -/
def splitPlays (ls : List String) : List String × List (List String) :=
  let a := closePlay (ls.foldl (fun a l =>
    if startsPlay l then { closePlay a with cur := some [l] }
    else match a.cur with
      | some c => { a with cur := some (c ++ [l]) }
      | none => { a with pre := a.pre ++ [l] }) {})
  (a.pre, a.plays)

/-! ## Playbook reconstruction -/

/-- Modelled from the spec: the raw blocks injected into one play, in
fixed order: `varInfiles` entries matched by the play's `vars_files:`
list (in `vars_files:` order), then every `includeVars` entry (in
mapping-iteration order). -/
def playInjectedBlocks (pc : PlaybookContext) (p : Play) : List VarBlock :=
  (p.varsFiles.getD []).filterMap (lookupBlock pc) ++ pc.includeVars.map (·.2)

/-- The injected variable lines of one play, each block indented by 4
spaces. -/
def injectedVarLines (pc : PlaybookContext) (p : Play) : List String :=
  (playInjectedBlocks pc p).flatMap (indentBlock 4)

/-- All top-level keys of the blocks injected into one play. -/
def injectedTopKeys (pc : PlaybookContext) (p : Play) : List String :=
  (playInjectedBlocks pc p).flatMap blockTopKeys

/-- Pre-existing inline `vars:` entries kept by the merge: those whose
top-level key does not collide with an injected top-level key. -/
def keptVarEntries (pc : PlaybookContext) (p : Play) : List VarEntry :=
  (p.varsSec.getD []).filter (fun e => !((injectedTopKeys pc p).contains e.key))

/-- The reconstructed `vars:` section of one play: kept inline entries
followed by the injected blocks; emitted when the play had a `vars:` key
or some block is injected. -/
def playVarsSection (pc : PlaybookContext) (p : Play) : List String :=
  if p.varsSec.isSome ∨ ¬ (playInjectedBlocks pc p) = [] then
    "  vars:" :: ((keptVarEntries pc p).flatMap (·.lines) ++ injectedVarLines pc p)
  else []

/-- The `vars_files:` entries kept by the merge: those with no matching
`varInfiles` key, in original order. -/
def remainingVarsFiles (pc : PlaybookContext) (p : Play) : List String :=
  (p.varsFiles.getD []).filter (fun e => (lookupBlock pc e).isNone)

/-- The reconstructed `vars_files:` section of one play; omitted entirely
when every entry was matched. -/
def playVarsFilesSection (pc : PlaybookContext) (p : Play) : List String :=
  if remainingVarsFiles pc p = [] then []
  else "  vars_files:" :: (remainingVarsFiles pc p).map (fun e => "    - " ++ e)

/-- The reconstructed `tasks:`/`handlers:` section of one play. -/
def playTasksSection (p : Play) : List String :=
  match p.secKey with
  | some k => k :: p.sec
  | none => []

/-- Re-emit one play with the injected variables spliced in. -/
def renderPlay (pc : PlaybookContext) (p : Play) : List String :=
  p.headLine :: p.header ++ playVarsSection pc p ++ playVarsFilesSection pc p
    ++ playTasksSection p

/-- Join reconstructed plays with a single blank line between them. -/
def joinBlanks : List (List String) → List String
  | [] => []
  | [b] => b
  | b :: bs => b ++ "" :: joinBlanks bs

/-- The lines contributed ahead of the last group when groups are joined
with blank separators: every earlier group followed by one blank line. -/
def joinPre : List (List String) → List String
  | [] => []
  | b :: t => b ++ "" :: joinPre t

/-- Reconstruct a whole playbook fragment. -/
def reconstructPlaybook (pc : PlaybookContext) (ls : List String) : List String :=
  let s := splitPlays ls
  s.1 ++ joinBlanks (s.2.map (fun g => renderPlay pc (parsePlay g)))

/-- Modelled from the spec: the synthesized leading task binding the
context variables of role or standalone tasks, its body the given blocks
each indented by 4 spaces. -/
def setFactTask (blocks : List VarBlock) : List String :=
  "- name: Set variables from context" :: "  ansible.builtin.set_fact:"
    :: blocks.flatMap (indentBlock 4)

/-! ## The pre-process pipeline -/

/-- The fixed error code of the structured invalid-multi-task-YAML
exception.  Modelled from the spec: a fixed identifier carried in the
`code` member of the exception detail. -/
def invalidYamlCode : String := "error-preprocess-invalid-yaml"

/-- The structured error raised on multi-task validation failure. -/
structure PreprocessError where
  code : String
  messages : List String
deriving DecidableEq

/-- Modelled from the spec: the whole pre-process transform.  Validation
runs first; on success the document marker and the trailing incomplete
line are removed, variable injection applies per file type exactly when
the feature flag is enabled and the caller is commercial, and the result
is quote-normalized. -/
def completionPreProcess (enabled commercial : Bool) (taskPrefixLen : Nat)
    (scan : Option ScanErr) (fileType : FileType) (ac : AdditionalContext)
    (ls : List String) : Except PreprocessError (List String) :=
  let diags := promptDiags taskPrefixLen scan ls
  if diags = [] then
    let ctx := removeTrailingLine (removeMarker ls)
    let out :=
      if enabled && commercial then
        match fileType with
        | FileType.playbook => reconstructPlaybook ac.playbookContext ctx
        | FileType.tasks_in_role =>
          setFactTask ((ac.roleContext.roleVars.defaults
            ++ ac.roleContext.roleVars.vars).map (·.2)) ++ "" :: ctx
        | FileType.tasks =>
          setFactTask (ac.standaloneTaskContext.includeVars.map (·.2)) ++ "" :: ctx
        | FileType.other => ctx
      else ctx
    Except.ok (normalizeLines out)
  else Except.error { code := invalidYamlCode, messages := diags }

instance : DecidableEq (Except PreprocessError (List String)) := fun a b =>
  match a, b with
  | Except.ok x, Except.ok y =>
    if h : x = y then isTrue (by rw [h]) else isFalse (by intro hc; cases hc; exact h rfl)
  | Except.error x, Except.error y =>
    if h : x = y then isTrue (by rw [h]) else isFalse (by intro hc; cases hc; exact h rfl)
  | Except.ok _, Except.error _ => isFalse (by intro hc; cases hc)
  | Except.error _, Except.ok _ => isFalse (by intro hc; cases hc)

/-- The request-scoped state seen by the pre-process stage: the prompt
and the `context` output field it populates. -/
structure CompletionState where
  promptLines : List String
  context : Option (List String) := none
deriving DecidableEq

/-- Run the pre-process stage on the request state: on success the
`context` field is written; on failure the state is returned unchanged
together with the raised structured error. -/
def runPreProcessStage (enabled commercial : Bool) (taskPrefixLen : Nat)
    (scan : Option ScanErr) (fileType : FileType) (ac : AdditionalContext)
    (st : CompletionState) : CompletionState × Option PreprocessError :=
  match completionPreProcess enabled commercial taskPrefixLen scan fileType ac
      st.promptLines with
  | Except.ok ctx => ({ st with context := some ctx }, none)
  | Except.error e => (st, some e)

/-! ## Test-suite fixtures (from `test_pre_process.py`), embedded as line
lists -/

/-- Block `VARS_1` of the test suite. -/
def VARS1 : VarBlock :=
  ["mattermost_app:",
   "  env: enhanced_context_value_env",
   "  MM_TEAMSETTINGS_SITENAME: enhanced_context_value_MM_TEAMSETTINGS_SITENAME",
   "  name: enhanced_context_value_name",
   "  image: enhanced_context_value_image",
   "  state: enhanced_context_value_state",
   "  generate_systemd: enhanced_context_value_generate_systemd",
   "  path: enhanced_context_value_path",
   "  container_prefix: enhanced_context_value_container_prefix",
   "  restart_policy: enhanced_context_value_restart_policy",
   "  ports:",
   "    - 8065:8065"]

/-- Block `VARS_2` of the test suite. -/
def VARS2 : VarBlock :=
  ["var_from_var_files_2:",
   "  - password: \"\"",
   "  - test:",
   "      test1: \"\"",
   "      test3:",
   "        - foo",
   "        - test4:",
   "            test5: \"\""]

/-- Block `VARS_3` of the test suite. -/
def VARS3 : VarBlock := ["var_from_include_vars: \"\""]

/-- Block `VARS_4` of the test suite. -/
def VARS4 : VarBlock := ["openvpn_role: \"\""]

/-- Block `VARS_5` of the test suite. -/
def VARS5 : VarBlock :=
  ["_openvpn_packages:",
   "  server:",
   "    - openvpn",
   "    - easy-rsa",
   "  client:",
   "    - openvpn",
   "openvpn_packages: \"\"",
   "_openvpn_easyrsa_path:",
   "  default: \"\"",
   "  Debian: \"\"",
   "openvpn_easyrsa_path: \"\"",
   "_openvpn_group:",
   "  default: \"\"",
   "  Debian: \"\"",
   "  RedHat: \"\"",
   "_openvpn_configuration_directory:",
   "  client:",
   "    default: \"\"",
   "    Debian: \"\"",
   "    RedHat-7: \"\"",
   "  server:",
   "    default: \"\"",
   "    Debian: \"\"",
   "    RedHat-7: \"\"",
   "openvpn_configuration_directory: \"\"",
   "openvpn_group: \"\"",
   "_openvpn_service:",
   "  server:",
   "    default: \"\"",
   "    RedHat-7: \"\"",
   "    RedHat: \"\"",
   "    Ubuntu: \"\"",
   "  client:",
   "    default: \"\"",
   "    RedHat-7: \"\"",
   "    RedHat: \"\"",
   "    Ubuntu: \"\"",
   "openvpn_service: \"\""]

/-- The `playbookContext` of `PLAYBOOK_PAYLOAD`. -/
def playbookAC : AdditionalContext :=
  { playbookContext :=
      { varInfiles := [("./vars/external_vars_1.yml", VARS1),
                       ("./vars/external_vars_2.yml", VARS2)]
        includeVars :=
          [("/home/anouser/ansible/var_test/scenario_1/vars/external_vars_3.yml",
            VARS3)] } }

/-- The prompt of `PLAYBOOK_PAYLOAD`. -/
def playbookPromptLines : List String :=
  ["---",
   "- hosts: all",
   "  remote_user: root",
   "  vars:",
   "    favcolor: blue",
   "  vars_files:",
   "    - ./vars/external_vars_1.yml",
   "    - ./vars/external_vars_2.yml",
   "  tasks:",
   "    - name: Include variable",
   "      ansible.builtin.include_vars:",
   "        file: ./vars/external_vars_3.yml",
   "    - name: Run container with podman using mattermost_app var"]

/-- Fixture `PLAYBOOK_CONTEXT_WITH_VARS` of the test suite. -/
def playbookContextWithVars : List String :=
  ["- hosts: all",
   "  remote_user: root",
   "  vars:",
   "    favcolor: blue"]
  ++ indentBlock 4 VARS1 ++ indentBlock 4 VARS2 ++ indentBlock 4 VARS3 ++
  ["  tasks:",
   "    - name: Include variable",
   "      ansible.builtin.include_vars:",
   "        file: ./vars/external_vars_3.yml"]

/-- Fixture `PLAYBOOK_CONTEXT_WITHOUT_VARS`: the prompt minus its marker
and trailing line. -/
def playbookContextWithoutVars : List String :=
  ["- hosts: all",
   "  remote_user: root",
   "  vars:",
   "    favcolor: blue",
   "  vars_files:",
   "    - ./vars/external_vars_1.yml",
   "    - ./vars/external_vars_2.yml",
   "  tasks:",
   "    - name: Include variable",
   "      ansible.builtin.include_vars:",
   "        file: ./vars/external_vars_3.yml"]

/-- The prompt with inline vars overlapping the injected keys
(`PLAYBOOK_PAYLOAD_PROMPT_WITH_OVERLAPPING_EXISTING_VARS`). -/
def overlappingPromptLines : List String :=
  ["---",
   "- hosts: all",
   "  remote_user: root",
   "  vars:",
   "    # This whole var will be overwritten, both the overlapping key and unique key",
   "    mattermost_app:",
   "      image: playbook_value_image",
   "      unique: playbook_value_unique",
   "  vars_files:",
   "    - ./vars/external_vars_1.yml",
   "    - ./vars/external_vars_2.yml",
   "  tasks:",
   "    - name: Include variable",
   "      ansible.builtin.include_vars:",
   "        file: ./vars/external_vars_3.yml",
   "    - name: Run container with podman using mattermost_app var"]

/-- Fixture `PLAYBOOK_CONTEXT_WITH_OVERLAPPING_EXISTING_VARS`. -/
def overlappingContextLines : List String :=
  ["- hosts: all",
   "  remote_user: root",
   "  vars:"]
  ++ indentBlock 4 VARS1 ++ indentBlock 4 VARS2 ++ indentBlock 4 VARS3 ++
  ["  tasks:",
   "    - name: Include variable",
   "      ansible.builtin.include_vars:",
   "        file: ./vars/external_vars_3.yml"]

/-- The prompt with a `vars_files:` entry absent from the additional
context. -/
def vfNotInAcPromptLines : List String :=
  ["---",
   "- hosts: all",
   "  remote_user: root",
   "  vars:",
   "    # This whole var will be overwritten, both the overlapping key and unique key",
   "    mattermost_app:",
   "      image: playbook_value_image",
   "      unique: playbook_value_unique",
   "  vars_files:",
   "    - ./vars/external_vars_1.yml",
   "    - ./vars/external_vars_2.yml",
   "    - ./vars/external_vars_not_included_in_additional_context.yml",
   "  tasks:",
   "    - name: Include variable",
   "      ansible.builtin.include_vars:",
   "        file: ./vars/external_vars_3.yml",
   "    - name: Run container with podman using mattermost_app var"]

/-- Fixture `PLAYBOOK_CONTEXT_WITH_VARS_FILES_NOT_IN_ADDITIONAL_CONTEXT`. -/
def vfNotInAcContextLines : List String :=
  ["- hosts: all",
   "  remote_user: root",
   "  vars:"]
  ++ indentBlock 4 VARS1 ++ indentBlock 4 VARS2 ++ indentBlock 4 VARS3 ++
  ["  vars_files:",
   "    - ./vars/external_vars_not_included_in_additional_context.yml",
   "  tasks:",
   "    - name: Include variable",
   "      ansible.builtin.include_vars:",
   "        file: ./vars/external_vars_3.yml"]

/-- The `playbookContext` of `PLAYBOOK_TWO_PLAYS_PAYLOAD`. -/
def twoPlaysAC : AdditionalContext :=
  { playbookContext :=
      { varInfiles := [("./vars/external_vars_1.yml", VARS1)] } }

/-- The prompt of `PLAYBOOK_TWO_PLAYS_PAYLOAD`. -/
def twoPlaysPromptLines : List String :=
  ["---",
   "- hosts: all",
   "  remote_user: root",
   "  vars_files:",
   "    - ./vars/external_vars_1.yml",
   "  tasks:",
   "    - name: Print hello",
   "      ansible.builtin.debug:",
   "        msg: Hello",
   "- hosts: all",
   "  remote_user: root",
   "  vars_files:",
   "    - ./vars/external_vars_1.yml",
   "  tasks:",
   "    - name: Print goodbye"]

/-- Fixture `PLAYBOOK_TWO_PLAYS_CONTEXT_WITH_VARS`. -/
def twoPlaysContextLines : List String :=
  ["- hosts: all",
   "  remote_user: root",
   "  vars:"]
  ++ indentBlock 4 VARS1 ++
  ["  tasks:",
   "    - name: Print hello",
   "      ansible.builtin.debug:",
   "        msg: Hello",
   "",
   "- hosts: all",
   "  remote_user: root",
   "  vars:"]
  ++ indentBlock 4 VARS1 ++
  ["  tasks:"]

/-- The `roleContext` of `TASKS_IN_ROLE_PAYLOAD`. -/
def tasksInRoleAC : AdditionalContext :=
  { roleContext :=
      { roleVars := { defaults := [("main.yml", VARS4)]
                      vars := [("main.yml", VARS5)] } } }

/-- The prompt of `TASKS_IN_ROLE_PAYLOAD` (also of `TASKS_PAYLOAD`). -/
def tasksPromptLines : List String :=
  ["---",
   "- name: import assert.yml",
   "  ansible.builtin.import_tasks: assert.yml",
   "  run_once: true",
   "  delegate_to: localhost",
   "",
   "- name: install openvpn packages"]

/-- Fixture `TASKS_IN_ROLE_CONTEXT_WITH_VARS`. -/
def tasksInRoleContextLines : List String :=
  ["- name: Set variables from context",
   "  ansible.builtin.set_fact:"]
  ++ indentBlock 4 VARS4 ++ indentBlock 4 VARS5 ++
  ["",
   "- name: import assert.yml",
   "  ansible.builtin.import_tasks: assert.yml",
   "  run_once: true",
   "  delegate_to: localhost",
   ""]

/-- The `standaloneTaskContext` of `TASKS_PAYLOAD`. -/
def tasksAC : AdditionalContext :=
  { standaloneTaskContext := { includeVars := [("main.yml", VARS4)] } }

/-- Fixture `TASKS_CONTEXT_WITH_VARS`. -/
def tasksContextWithVarsLines : List String :=
  ["- name: Set variables from context",
   "  ansible.builtin.set_fact:"]
  ++ indentBlock 4 VARS4 ++
  ["",
   "- name: import assert.yml",
   "  ansible.builtin.import_tasks: assert.yml",
   "  run_once: true",
   "  delegate_to: localhost",
   ""]

/-- Fixture `TASKS_PAYLOAD_PROMPT_WITH_QUOTED_TASKS`. -/
def quotedTasksPromptLines : List String :=
  ["---",
   "- name: \"import assert.yml\"",
   "  ansible.builtin.import_tasks: assert.yml",
   "  run_once: true",
   "  delegate_to: localhost",
   "",
   "- name: \"install openvpn packages\""]

/-- Fixture `TASKS_PAYLOAD_PROMPT_WITH_NON_QUOTED_TASK`: the expected
context of the quoted-tasks prompt. -/
def nonQuotedTaskLines : List String :=
  ["- name: import assert.yml",
   "  ansible.builtin.import_tasks: assert.yml",
   "  run_once: true",
   "  delegate_to: localhost",
   ""]

/-- The prompt of `test_multitask_with_multiple_errors`. -/
def multiErrorPromptLines : List String :=
  ["",
   "        ---",
   "        - name: Test the vscode extension",
   "            hosts: all",
   "            tasks:",
   "                # install: apache & - start it &",
   "            "]

/-- The prompt of `test_multitask_with_scanner_error`. -/
def scannerPromptLines : List String :=
  ["",
   "        ---",
   "        - name: Test the vscode extension",
   "            hosts: all",
   "            tasks:",
   "                # Some crazy YAML",
   "            "]

/-- Double quote as a one-character string. -/
def dq : String := String.mk [dqChar]

/-- A task line carrying a double-quoted name. -/
def quotedNameLine (N : String) : String := "- name: " ++ dq ++ N ++ dq

/-- A play with both a colliding and a non-colliding inline `vars:` key:
`favcolor` does not collide with any injected key, `mattermost_app`
collides with the top-level key of `VARS_1`. -/
def mixedVarsPlay : Play :=
  { headLine := "- hosts: all"
    header := ["  remote_user: root"]
    varsSec := some
      [{ key := "favcolor", lines := ["    favcolor: blue"] },
       { key := "mattermost_app",
         lines := ["    mattermost_app:",
                   "      image: playbook_value_image",
                   "      unique: playbook_value_unique"] }]
    varsFiles := some ["./vars/external_vars_1.yml", "./vars/external_vars_2.yml"]
    secKey := some "  tasks:"
    sec := [] }

/-- The play of the overlapping-vars fixture: its only inline key
collides with the injected `mattermost_app`. -/
def overlappingPlay : Play :=
  { headLine := "- hosts: all"
    header := ["  remote_user: root"]
    varsSec := some
      [{ key := "mattermost_app",
         lines :=
           ["    # This whole var will be overwritten, both the overlapping key and unique key",
            "    mattermost_app:",
            "      image: playbook_value_image",
            "      unique: playbook_value_unique"] }]
    varsFiles := some ["./vars/external_vars_1.yml", "./vars/external_vars_2.yml"]
    secKey := some "  tasks:"
    sec := [] }

/-- The play of the plain playbook fixture: one non-colliding inline key. -/
def favcolorPlay : Play :=
  { headLine := "- hosts: all"
    header := ["  remote_user: root"]
    varsSec := some [{ key := "favcolor", lines := ["    favcolor: blue"] }]
    varsFiles := some ["./vars/external_vars_1.yml", "./vars/external_vars_2.yml"]
    secKey := some "  tasks:"
    sec := [] }

/-- The play of the vars-files-not-in-additional-context fixture. -/
def vfMixedPlay : Play :=
  { headLine := "- hosts: all"
    header := ["  remote_user: root"]
    varsFiles := some
      ["./vars/external_vars_1.yml",
       "./vars/external_vars_2.yml",
       "./vars/external_vars_not_included_in_additional_context.yml"]
    secKey := some "  tasks:"
    sec := [] }

end PreProcess

namespace PreProcess

/-! ## Helper lemmas -/

theorem strData_append (a b : String) : (a ++ b).data = a.data ++ b.data := rfl

theorem strAppendLeftCancel (a : String) {b c : String}
    (h : a ++ b = a ++ c) : b = c := by
  apply String.ext
  have h2 := congrArg String.data h
  rw [strData_append, strData_append] at h2
  exact List.append_cancel_left h2

theorem vfHeaderNeEntry (e : String) : ¬ ("  vars_files:" = "    - " ++ e) := by
  intro h
  have h2 : (("  vars_files:").data.drop 2).head? =
      ((("    - " ++ e).data).drop 2).head? := by rw [h]
  have hR : ((("    - " ++ e).data).drop 2).head? = some ' ' := rfl
  rw [hR] at h2
  exact absurd h2 (by decide)

theorem mapStripFixed (ls : List String)
    (h : ∀ l ∈ ls, stripQuotedName l = l) : normalizeLines ls = ls := by
  induction ls with
  | nil => rfl
  | cons a t ih =>
    have ha := h a (List.mem_cons_self a t)
    have ht := ih (fun l hl => h l (List.mem_cons_of_mem a hl))
    simp only [normalizeLines, List.map_cons] at ht ⊢
    rw [ha, ht]

theorem dropWhileSp_append_last (l : List Char) (c : Char) (h : isSp c = false) :
    (l ++ [c]).dropWhile isSp = l.dropWhile isSp ++ [c] := by
  induction l with
  | nil => simp [List.dropWhile, h]
  | cons a t ih =>
    by_cases ha : isSp a
    · simp [List.dropWhile, ha, ih]
    · simp [List.dropWhile, ha]

theorem trimCore_cons (c : Char) (cs : List Char) (h : isSp c = false) :
    trimCore (c :: cs) = c :: (cs.reverse.dropWhile isSp).reverse := by
  unfold trimCore
  rw [List.dropWhile_cons]
  simp only [h, Bool.false_eq_true, if_false]
  rw [List.reverse_cons, dropWhileSp_append_last _ _ h]
  simp

theorem finalTaskLine_concat (ls : List String) (x : String)
    (h : isBlankLine x = false) :
    finalTaskLine (ls ++ [x]) = some (trimSpaces x) := by
  unfold finalTaskLine
  rw [List.filter_append]
  have : List.filter (fun l => ¬ isBlankLine l) [x] = [x] := by
    simp [List.filter, h]
  rw [this, List.getLast?_concat]
  rfl

theorem removeTrailing_concat (ls : List String) (x : String)
    (h : isBlankLine x = false) : removeTrailingLine (ls ++ [x]) = ls := by
  unfold removeTrailingLine
  rw [List.getLast?_concat]
  simp [h, List.dropLast_concat]

theorem removeTrailing_concat_blank (ls : List String) (x : String)
    (h : isBlankLine x = true) : removeTrailingLine (ls ++ [x]) = ls ++ [x] := by
  unfold removeTrailingLine
  rw [List.getLast?_concat]
  simp [h]

theorem removeMarker_cons (l : String) (ls : List String) (h : ¬ l = "---") :
    removeMarker (l :: ls) = l :: ls := by
  simp [removeMarker, h]

theorem removeMarker_marker (ls : List String) :
    removeMarker ("---" :: ls) = ls := by
  simp [removeMarker]

theorem memOfGetLastSome {α : Type} {l : List α} {a : α}
    (h : l.getLast? = some a) : a ∈ l := by
  have hx : a ∈ l.getLast? := Option.mem_def.mpr h
  obtain ⟨hne, he⟩ := List.mem_getLast?_eq_getLast hx
  rw [he]
  exact List.getLast_mem hne

theorem isPrefixOf_self_append (l m : List Char) :
    l.isPrefixOf (l ++ m) = true := by
  induction l with
  | nil => simp [List.isPrefixOf]
  | cons a t ih => simp [List.isPrefixOf, ih]

theorem isPrefixOf_concat_of_not_mem (l : List Char) (a : Char) (m : List Char)
    (h : ¬ a ∈ m) : (l ++ [a]).isPrefixOf (l ++ m) = false := by
  induction l with
  | nil =>
    cases m with
    | nil => simp [List.isPrefixOf]
    | cons b bs =>
      have hne : ¬ a = b := fun hab => h (hab ▸ List.mem_cons_self b bs)
      simp [List.isPrefixOf, hne]
  | cons c t ih => simp [List.isPrefixOf, ih]

theorem stripCore_quoted (n : List Char) :
    stripCore ("- name: ".data ++ [dqChar] ++ n ++ [dqChar])
      = "- name: ".data ++ n := by
  have hd : "- name: ".data = ['-', ' ', 'n', 'a', 'm', 'e', ':', ' '] := rfl
  have e1 : ("- name: ".data ++ [dqChar] ++ n ++ [dqChar]).takeWhile isSp = [] := by
    rw [hd]; rfl
  have e2 : ("- name: ".data ++ [dqChar] ++ n ++ [dqChar]).dropWhile isSp
      = "- name: ".data ++ [dqChar] ++ n ++ [dqChar] := by
    rw [hd]; rfl
  have c1 : ("- name: ".data ++ [dqChar]).isPrefixOf
      ("- name: ".data ++ [dqChar] ++ n ++ [dqChar]) = true := by
    have := isPrefixOf_self_append ("- name: ".data ++ [dqChar]) (n ++ [dqChar])
    rw [List.append_assoc ("- name: ".data ++ [dqChar]) n [dqChar]]
    exact this
  have c2 : ("- name: ".data ++ [dqChar] ++ n ++ [dqChar]).getLast? = some dqChar :=
    List.getLast?_concat _
  have c3 : "- name: ".data.length + 2 ≤
      ("- name: ".data ++ [dqChar] ++ n ++ [dqChar]).length := by
    simp [List.length_append]
  simp only [stripCore, e1, e2]
  rw [if_pos ⟨c1, c2, c3⟩]
  have hlen : "- name: ".data.length + 1 = ("- name: ".data ++ [dqChar]).length := by
    simp
  rw [hlen]
  have hdrop : (("- name: ".data ++ [dqChar] ++ n ++ [dqChar])).drop
      ("- name: ".data ++ [dqChar]).length = n ++ [dqChar] := by
    have := List.drop_left ("- name: ".data ++ [dqChar]) (n ++ [dqChar])
    rw [List.append_assoc ("- name: ".data ++ [dqChar]) n [dqChar]]
    exact this
  rw [hdrop, List.dropLast_concat]
  simp

theorem stripCore_unquoted (n : List Char) (h : ¬ dqChar ∈ n) :
    stripCore ("- name: ".data ++ n) = "- name: ".data ++ n := by
  have hd : "- name: ".data = ['-', ' ', 'n', 'a', 'm', 'e', ':', ' '] := rfl
  have e1 : ("- name: ".data ++ n).takeWhile isSp = [] := by rw [hd]; rfl
  have e2 : ("- name: ".data ++ n).dropWhile isSp = "- name: ".data ++ n := by
    rw [hd]; rfl
  have c1 : ("- name: ".data ++ [dqChar]).isPrefixOf ("- name: ".data ++ n)
      = false := isPrefixOf_concat_of_not_mem _ _ _ h
  simp only [stripCore, e1, e2]
  rw [if_neg]
  intro hc
  rw [c1] at hc
  exact absurd hc.1 (by simp)

theorem stripQuoted_eq (N : String) :
    stripQuotedName (quotedNameLine N) = "- name: " ++ N := by
  apply String.ext
  have hd : (quotedNameLine N).data
      = "- name: ".data ++ [dqChar] ++ N.data ++ [dqChar] := by
    show ("- name: " ++ dq ++ N ++ dq).data = _
    simp [strData_append, dq, List.append_assoc]
  show stripCore (quotedNameLine N).data = ("- name: " ++ N).data
  rw [hd, stripCore_quoted]
  rfl

theorem stripUnquoted_eq (N : String) (h : ¬ dqChar ∈ N.data) :
    stripQuotedName ("- name: " ++ N) = "- name: " ++ N := by
  apply String.ext
  show stripCore ("- name: " ++ N).data = ("- name: " ++ N).data
  have hd : ("- name: " ++ N).data = "- name: ".data ++ N.data := rfl
  rw [hd, stripCore_unquoted _ h]

theorem notBlank_of_head (s : String) (c : Char) (h : s.data.head? = some c)
    (hc : isSp c = false) : isBlankLine s = false := by
  cases hdata : s.data with
  | nil => rw [hdata] at h; exact absurd h (by simp)
  | cons a t =>
    rw [hdata] at h
    have : a = c := by injection h
    subst this
    simp [isBlankLine, hdata, hc]

theorem notComment_trim_of_head (s : String) (c : Char)
    (h : s.data.head? = some c) (hsp : isSp c = false) (hne : ¬ c = '#') :
    isCommentLine (trimSpaces s) = false := by
  cases hdata : s.data with
  | nil => rw [hdata] at h; exact absurd h (by simp)
  | cons a t =>
    rw [hdata] at h
    have : a = c := by injection h
    subst this
    have ht : (trimSpaces s).data = trimCore s.data := rfl
    rw [hdata] at ht
    rw [trimCore_cons _ _ hsp] at ht
    simp [isCommentLine, ht, hne]

theorem promptDiagsNone (k : Nat) (pre : List String) (nm : String)
    (post : List String) (hnm : isBlankLine nm = false)
    (hc : ∀ l ∈ nm :: post, isCommentLine (trimSpaces l) = false) :
    promptDiags k none (pre ++ nm :: post ++ [""]) = [] := by
  have hne : List.filter (fun l => ¬ isBlankLine l) (nm :: post) ≠ [] := by
    rw [List.filter_cons]
    simp [hnm]
  obtain ⟨a, ha⟩ : ∃ a, (List.filter (fun l => ¬ isBlankLine l)
      (nm :: post)).getLast? = some a := by
    cases hgl : (List.filter (fun l => ¬ isBlankLine l) (nm :: post)).getLast? with
    | none => exact absurd (List.getLast?_eq_none_iff.mp hgl) hne
    | some a => exact ⟨a, rfl⟩
  have hmem : a ∈ nm :: post := List.mem_of_mem_filter (memOfGetLastSome ha)
  have hft : finalTaskLine (pre ++ nm :: post ++ [""]) = some (trimSpaces a) := by
    unfold finalTaskLine
    rw [List.filter_append]
    have h0 : List.filter (fun l => ¬ isBlankLine l) [""] = [] := rfl
    rw [h0, List.append_nil, List.filter_append,
      List.getLast?_append_of_ne_nil _ hne, ha]
    rfl
  unfold promptDiags
  rw [hft]
  simp [hc a hmem]

end PreProcess

namespace PreProcess

/-! ## Claim theorems -/

/-- C3: when the final line of the prompt is the comment
`# install: apache & - start it &`, the multi-task validator produces
exactly three diagnostics, ordered by segment position: the colon
violation of `install: apache` (column 8), the hyphen violation of
`- start it` (column 1), and the empty-segment violation of the trailing
empty token — all independent violations are collected, not fail-fast. -/
theorem c3_multitask_three_diags (k : Nat) (ls : List String)
    (h : finalTaskLine ls = some "# install: apache & - start it &") :
    promptDiags k none ls =
      ["Task " ++ apos ++ "install: apache" ++ apos ++
        " invalid at column 8. Task contains a colon.",
       "Task " ++ apos ++ "- start it" ++ apos ++
        " invalid at column 1. Task starts with a hyphen.",
       "Empty task definition."] := by
  unfold promptDiags
  rw [h]
  simp only [validateMultiTask]
  decide

/-- Witness for C3 at the concrete prompt of
`test_multitask_with_multiple_errors`. -/
theorem c3_multitask_three_diags_witness :
    finalTaskLine multiErrorPromptLines =
      some "# install: apache & - start it &" ∧
    promptDiags 8 none multiErrorPromptLines =
      ["Task " ++ apos ++ "install: apache" ++ apos ++
        " invalid at column 8. Task contains a colon.",
       "Task " ++ apos ++ "- start it" ++ apos ++
        " invalid at column 1. Task starts with a hyphen.",
       "Empty task definition."] :=
  ⟨by decide, c3_multitask_three_diags 8 multiErrorPromptLines (by decide)⟩

/-- C5: when the structural parse of a prompt whose final line is a
multi-task comment raises a scanner error, exactly one diagnostic is
produced, formatted `Task '<cleaned last line>' invalid at column <n>.
<underlying scanner message>.`, where the column is the scanner mark
column minus the fixed task-line prefix length, 1-based. -/
theorem c5_scanner_error_diag (k : Nat) (msg : String) (col : Nat)
    (ls : List String) (l : String) (h1 : finalTaskLine ls = some l)
    (h2 : isCommentLine l = true) :
    promptDiags k (some (ScanErr.mk msg col)) ls =
      ["Task " ++ apos ++ commentBody l ++ apos ++ " invalid at column "
        ++ toString ((col : Int) - (k : Int) + 1) ++ ". " ++ msg ++ "."] := by
  unfold promptDiags
  rw [h1]
  simp [h2, validateMultiTask, mkTaskMsg]

/-- Witness for C5 at the concrete prompt and mocked scanner error of
`test_multitask_with_scanner_error`: a mark at column `len(task_prefix)`
(here 8) yields column 1. -/
theorem c5_scanner_error_diag_witness :
    promptDiags 8 (some (ScanErr.mk "Something went horribly wrong" 8))
      scannerPromptLines =
      ["Task " ++ apos ++ "Some crazy YAML" ++ apos ++
        " invalid at column 1. Something went horribly wrong."] :=
  (c5_scanner_error_diag 8 "Something went horribly wrong" 8
    scannerPromptLines "# Some crazy YAML" (by decide) (by decide)).trans
    (by decide)

/-- C7: whenever the multi-task validator accumulates at least one
diagnostic, the stage raises the structured exception carrying the fixed
error code and the full ordered diagnostic list, and the request state —
in particular its `context` field — is left unmodified. -/
theorem c7_error_leaves_context (e c : Bool) (k : Nat)
    (scan : Option ScanErr) (ft : FileType) (ac : AdditionalContext)
    (st : CompletionState) (h : ¬ promptDiags k scan st.promptLines = []) :
    runPreProcessStage e c k scan ft ac st =
      (st, some { code := invalidYamlCode
                  messages := promptDiags k scan st.promptLines }) := by
  unfold runPreProcessStage completionPreProcess
  simp [h]

/-- Witness for C7 at the multi-error prompt: the stage returns the
untouched state and the three diagnostics under the fixed code. -/
theorem c7_error_leaves_context_witness :
    runPreProcessStage true true 8 none FileType.tasks {}
      { promptLines := multiErrorPromptLines } =
      ({ promptLines := multiErrorPromptLines },
       some { code := invalidYamlCode
              messages :=
                ["Task " ++ apos ++ "install: apache" ++ apos ++
                  " invalid at column 8. Task contains a colon.",
                 "Task " ++ apos ++ "- start it" ++ apos ++
                  " invalid at column 1. Task starts with a hyphen.",
                 "Empty task definition."] }) :=
  (c7_error_leaves_context true true 8 none FileType.tasks {}
    { promptLines := multiErrorPromptLines } (by decide)).trans (by decide)

end PreProcess

namespace PreProcess

/-- C1, counterexample: a play whose inline `vars:` mapping has the
colliding key `mattermost_app` and the non-colliding sibling key
`favcolor`.  A collision exists, yet the line `    favcolor: blue` of the
original inline mapping still appears in the reconstructed `vars:` block,
so the block does not consist of the injected blocks only. -/
theorem c1_counterexample :
    ((mixedVarsPlay.varsSec.getD []).any
      (fun e => (injectedTopKeys playbookAC.playbookContext mixedVarsPlay).contains
        e.key) = true) ∧
    "    favcolor: blue" ∈
      (mixedVarsPlay.varsSec.getD []).flatMap VarEntry.lines ∧
    "    favcolor: blue" ∈ playVarsSection playbookAC.playbookContext mixedVarsPlay ∧
    ¬ (playVarsSection playbookAC.playbookContext mixedVarsPlay =
        "  vars:" :: injectedVarLines playbookAC.playbookContext mixedVarsPlay) := by
  decide

/-- C1, amended: when every top-level key of the pre-existing inline
`vars:` mapping collides with an injected top-level key, the
reconstructed `vars:` block contains only the injected blocks; a
colliding entry is dropped wholesale (its key line, attached comments and
every sibling key under it), while non-colliding inline entries are
retained ahead of the injected blocks. -/
theorem c1_all_colliding_only_injected (pc : PlaybookContext) (p : Play)
    (es : List VarEntry) (h : p.varsSec = some es)
    (hall : ∀ e ∈ es, (injectedTopKeys pc p).contains e.key = true) :
    playVarsSection pc p = "  vars:" :: injectedVarLines pc p := by
  have hkept : keptVarEntries pc p = [] := by
    unfold keptVarEntries
    rw [h]
    simp only [Option.getD_some]
    rw [List.filter_eq_nil_iff]
    intro e he
    simpa using hall e he
  unfold playVarsSection
  rw [if_pos (Or.inl (by rw [h]; rfl)), hkept]
  rfl

/-- Witness for C1 (amended) at the overlapping-vars fixture play: its
only inline key collides, and the reconstructed `vars:` block is exactly
the injected blocks. -/
theorem c1_all_colliding_only_injected_witness :
    (∀ e ∈ [VarEntry.mk "mattermost_app"
        ["    # This whole var will be overwritten, both the overlapping key and unique key",
         "    mattermost_app:",
         "      image: playbook_value_image",
         "      unique: playbook_value_unique"],
      ],
      (injectedTopKeys playbookAC.playbookContext overlappingPlay).contains
        e.key = true) ∧
    playVarsSection playbookAC.playbookContext overlappingPlay =
      "  vars:" :: injectedVarLines playbookAC.playbookContext overlappingPlay :=
  ⟨by decide,
   c1_all_colliding_only_injected playbookAC.playbookContext overlappingPlay _
     rfl (by decide)⟩

/-- C2, counterexample: on the plain playbook fixture the injection
applies (feature on, commercial caller, non-empty context), yet the
original inline `vars:` line `    favcolor: blue` of the prompt survives
in the produced context — inline vars are not dropped wholesale. -/
theorem c2_counterexample :
    completionPreProcess true true 8 none FileType.playbook playbookAC
      playbookPromptLines = Except.ok playbookContextWithVars ∧
    "    favcolor: blue" ∈ playbookPromptLines ∧
    "    favcolor: blue" ∈ playbookContextWithVars := by
  refine ⟨by decide, by decide, by decide⟩

/-- C2, amended: additional-context vars replace inline vars key by key:
an inline entry whose top-level key matches an injected top-level key is
dropped (with all its lines); entries without a match are kept, in
original order, ahead of the injected blocks. -/
theorem c2_key_level_merge (pc : PlaybookContext) (p : Play)
    (es : List VarEntry) (h : p.varsSec = some es) :
    playVarsSection pc p =
      "  vars:" ::
        ((es.filter (fun e => !((injectedTopKeys pc p).contains e.key))).flatMap
          VarEntry.lines ++ injectedVarLines pc p) := by
  unfold playVarsSection keptVarEntries
  rw [h]
  simp

/-- Witness for C2 (amended) at the plain playbook fixture play: the
non-colliding `favcolor` entry is kept ahead of the injected blocks. -/
theorem c2_key_level_merge_witness :
    playVarsSection playbookAC.playbookContext favcolorPlay =
      "  vars:" :: ("    favcolor: blue" ::
        injectedVarLines playbookAC.playbookContext favcolorPlay) :=
  (c2_key_level_merge playbookAC.playbookContext favcolorPlay _ rfl).trans
    (by decide)

/-- C4: in the reconstructed `vars_files:` section, every entry with a
matching `varInfiles` key is absent; when the section is emitted it
lists exactly the unmatched entries, in original relative order; and when
every entry matches, the `vars_files:` key is omitted entirely. -/
theorem c4_vars_files_filtering (pc : PlaybookContext) (p : Play)
    (es : List String) (h : p.varsFiles = some es) :
    (∀ e ∈ es, (lookupBlock pc e).isSome = true →
       ¬ ("    - " ++ e) ∈ playVarsFilesSection pc p) ∧
    (¬ playVarsFilesSection pc p = [] →
       playVarsFilesSection pc p =
         "  vars_files:" ::
           (es.filter (fun e => (lookupBlock pc e).isNone)).map
             (fun e => "    - " ++ e)) ∧
    ((∀ e ∈ es, (lookupBlock pc e).isSome = true) →
       playVarsFilesSection pc p = []) := by
  have hrem : remainingVarsFiles pc p =
      es.filter (fun e => (lookupBlock pc e).isNone) := by
    unfold remainingVarsFiles
    rw [h]
    rfl
  refine ⟨?_, ?_, ?_⟩
  · intro e he hsome hmem
    unfold playVarsFilesSection at hmem
    by_cases hempty : remainingVarsFiles pc p = []
    · rw [if_pos hempty] at hmem
      exact absurd hmem (List.not_mem_nil _)
    · rw [if_neg hempty] at hmem
      rcases List.mem_cons.mp hmem with hhd | htl
      · exact vfHeaderNeEntry e hhd.symm
      · obtain ⟨x, hx, hxe⟩ := List.mem_map.mp htl
        have hxe' : x = e := strAppendLeftCancel "    - " hxe
        subst hxe'
        rw [hrem] at hx
        have := List.of_mem_filter hx
        simp only [Option.isNone_iff_eq_none] at this
        rw [this] at hsome
        exact absurd hsome (by simp [Option.isSome])
  · intro hne
    unfold playVarsFilesSection at hne ⊢
    by_cases hempty : remainingVarsFiles pc p = []
    · rw [if_pos hempty] at hne
      exact absurd rfl hne
    · rw [if_neg hempty, hrem]
  · intro hall
    unfold playVarsFilesSection
    rw [if_pos]
    rw [hrem, List.filter_eq_nil_iff]
    intro e he
    have := hall e he
    simp only [Option.isSome_iff_exists] at this
    obtain ⟨b, hb⟩ := this
    simp [hb]

/-- Witness for C4 at the vars-files fixture play: the matched entries
are absent, the unmatched entry remains alone; and with only matched
entries the section is omitted. -/
theorem c4_vars_files_filtering_witness :
    (¬ ("    - ./vars/external_vars_1.yml") ∈
        playVarsFilesSection playbookAC.playbookContext vfMixedPlay) ∧
    playVarsFilesSection playbookAC.playbookContext vfMixedPlay =
      ["  vars_files:",
       "    - ./vars/external_vars_not_included_in_additional_context.yml"] ∧
    playVarsFilesSection playbookAC.playbookContext favcolorPlay = [] :=
  ⟨(c4_vars_files_filtering playbookAC.playbookContext vfMixedPlay _ rfl).1
      "./vars/external_vars_1.yml" (by decide) (by decide),
   ((c4_vars_files_filtering playbookAC.playbookContext vfMixedPlay _ rfl).2.1
      (by decide)).trans (by decide),
   (c4_vars_files_filtering playbookAC.playbookContext favcolorPlay _ rfl).2.2
      (by decide)⟩

end PreProcess

namespace PreProcess

/-- C6, counterexample: with the feature flag off and a commercial
caller, the quoted-tasks prompt (fixture of `test_quoted_singletask`)
yields a context that is not the prompt minus marker and trailing line
verbatim — the double quotes around the task name are stripped. -/
theorem c6_counterexample :
    completionPreProcess false true 8 none FileType.tasks tasksAC
      quotedTasksPromptLines = Except.ok nonQuotedTaskLines ∧
    ¬ (nonQuotedTaskLines =
        removeTrailingLine (removeMarker quotedTasksPromptLines)) :=
  ⟨by decide, by decide⟩

/-- C6, amended: with the flag off or a non-commercial caller (any file
type, any additional context), the context is the prompt with the
leading marker and trailing incomplete line removed followed by
task-name quote normalization; when no retained line carries a quoted
task name, the result is verbatim. -/
theorem c6_passthrough (e c : Bool) (k : Nat) (ft : FileType)
    (ac : AdditionalContext) (ls : List String)
    (hflag : e = false ∨ c = false)
    (hdiags : promptDiags k none ls = []) :
    completionPreProcess e c k none ft ac ls =
      Except.ok (normalizeLines (removeTrailingLine (removeMarker ls))) ∧
    ((∀ l ∈ removeTrailingLine (removeMarker ls), stripQuotedName l = l) →
      completionPreProcess e c k none ft ac ls =
        Except.ok (removeTrailingLine (removeMarker ls))) := by
  have hec : (e && c) = false := by
    rcases hflag with h | h <;> simp [h]
  have h1 : completionPreProcess e c k none ft ac ls =
      Except.ok (normalizeLines (removeTrailingLine (removeMarker ls))) := by
    simp [completionPreProcess, hdiags, hec]
  exact ⟨h1, fun hfix => by rw [h1, mapStripFixed _ hfix]⟩

/-- Witness for C6 (amended) at the playbook fixture with the flag off:
the context is the prompt minus marker and trailing line, verbatim. -/
theorem c6_passthrough_witness :
    completionPreProcess false true 8 none FileType.playbook playbookAC
      playbookPromptLines = Except.ok playbookContextWithoutVars :=
  ((c6_passthrough false true 8 FileType.playbook playbookAC
    playbookPromptLines (Or.inl rfl) (by decide)).2 (by decide)).trans
    (by decide)

/-- C8: on the two-play fixture sharing one var-file, the produced
context is exactly the expected reconstruction: the injected block
(headed by `    mattermost_app:`) appears once under each play's own
`vars:` key, the two plays are separated by exactly one blank line, and
the second play ends with an empty `tasks:` section. -/
theorem c8_two_plays :
    completionPreProcess true true 8 none FileType.playbook twoPlaysAC
      twoPlaysPromptLines = Except.ok twoPlaysContextLines ∧
    twoPlaysContextLines.count "" = 1 ∧
    twoPlaysContextLines.count "    mattermost_app:" = 2 ∧
    twoPlaysContextLines.getLast? = some "  tasks:" :=
  ⟨by decide, by decide, by decide, by decide⟩

/-- C9: for every `tasks_in_role` prompt with injection enabled and a
commercial caller, the context begins with the synthesized first task
named `Set variables from context` using `ansible.builtin.set_fact:`;
its body is all `roleVars.defaults` blocks followed by all
`roleVars.vars` blocks (mapping-iteration order within each group), each
indented 4 spaces, and it precedes the original first task of the
prompt. -/
theorem c9_tasks_in_role (k : Nat) (ac : AdditionalContext)
    (ls : List String) (h : promptDiags k none ls = []) :
    completionPreProcess true true k none FileType.tasks_in_role ac ls =
      Except.ok (normalizeLines (
        ("- name: Set variables from context" ::
         "  ansible.builtin.set_fact:" ::
          ((ac.roleContext.roleVars.defaults.map Prod.snd
            ++ ac.roleContext.roleVars.vars.map Prod.snd).flatMap
              (indentBlock 4)))
        ++ "" :: removeTrailingLine (removeMarker ls))) := by
  simp [completionPreProcess, h, setFactTask]

/-- Witness for C9 at the `tasks_in_role` fixture: the produced context
is exactly `TASKS_IN_ROLE_CONTEXT_WITH_VARS`. -/
theorem c9_tasks_in_role_witness :
    completionPreProcess true true 8 none FileType.tasks_in_role
      tasksInRoleAC tasksPromptLines = Except.ok tasksInRoleContextLines :=
  (c9_tasks_in_role 8 tasksInRoleAC tasksPromptLines (by decide)).trans
    (by decide)

end PreProcess

namespace PreProcess

/-! ## Helper lemmas for C10 -/

theorem joinBlanks_cons₂ (a c : List String) (t : List (List String)) :
    joinBlanks (a :: c :: t) = a ++ "" :: joinBlanks (c :: t) := rfl

theorem joinBlanks_concat_eq (ts : List (List String)) (x : List String) :
    joinBlanks (ts ++ [x]) = joinPre ts ++ x := by
  induction ts with
  | nil => rfl
  | cons b t ih =>
    cases t with
    | nil => simp [joinBlanks, joinPre]
    | cons c t' =>
      have e : joinBlanks ((b :: c :: t') ++ [x])
          = b ++ "" :: joinBlanks ((c :: t') ++ [x]) := rfl
      rw [e, ih]
      simp [joinPre]

theorem mem_joinPre (ts : List (List String)) (l : String)
    (h : l ∈ joinPre ts) : (∃ b ∈ ts, l ∈ b) ∨ l = "" := by
  induction ts with
  | nil => simp [joinPre] at h
  | cons b t ih =>
    simp only [joinPre] at h
    rcases List.mem_append.mp h with h1 | h2
    · exact Or.inl ⟨b, List.mem_cons_self b t, h1⟩
    · rcases List.mem_cons.mp h2 with h3 | h4
      · exact Or.inr h3
      · rcases ih h4 with ⟨b', hb', hlb⟩ | he
        · exact Or.inl ⟨b', List.mem_cons_of_mem b hb', hlb⟩
        · exact Or.inr he

theorem startsPlayNeMarker (l : String) (h : startsPlay l = true) :
    ¬ l = "---" := by
  intro hl
  subst hl
  exact absurd h (by decide)

theorem nameLineNeMarker (N : String) : ¬ ("- name: " ++ N = "---") := by
  intro h
  have h2 : ("- name: ".data ++ N.data).length = ("---".data).length :=
    congrArg List.length (congrArg String.data h)
  simp [List.length_append] at h2

theorem nameLineHead (N : String) :
    ("- name: " ++ N).data.head? = some '-' := rfl

theorem promptDiagsConcat (k : Nat) (ls : List String) (x : String)
    (h1 : isBlankLine x = false)
    (h2 : isCommentLine (trimSpaces x) = false) :
    promptDiags k none (ls ++ [x]) = [] := by
  unfold promptDiags
  rw [finalTaskLine_concat _ _ h1]
  simp [h2]

end PreProcess

namespace PreProcess

/-- Passthrough evaluation of the pipeline when injection is off. -/
theorem passthroughRun (e c : Bool) (k : Nat) (ft : FileType)
    (ac : AdditionalContext) (ls : List String) (hec : (e && c) = false)
    (hdiags : promptDiags k none ls = []) :
    completionPreProcess e c k none ft ac ls =
      Except.ok (normalizeLines (removeTrailingLine (removeMarker ls))) := by
  simp [completionPreProcess, hdiags, hec]

/-- C10: for every task-list prompt whose final retained task name is
double-quoted (earlier task blocks `ts`, the final retained task with
quoted name `N` and continuation lines `rest`, then the incomplete
trailing line), the produced context contains the task name without the
quotes, and the whole transform applied again to the produced output
yields that same output. -/
theorem c10_quoted_name_idempotent (ts : List (List String)) (N : String)
    (rest : List String) (lastLine : String)
    (hts : ∀ b ∈ ts, (∀ l ∈ b, stripQuotedName l = l) ∧
      startsPlay (b.headD "") = true)
    (hrest : ∀ l ∈ rest, stripQuotedName l = l ∧
      isCommentLine (trimSpaces l) = false)
    (hN : ¬ dqChar ∈ N.data)
    (hlast1 : isBlankLine lastLine = false)
    (hlast2 : isCommentLine (trimSpaces lastLine) = false) :
    completionPreProcess false true 8 none FileType.tasks {}
        ("---" :: joinBlanks (ts ++ [quotedNameLine N :: rest]) ++ ["", lastLine])
      = Except.ok (joinPre ts ++ ("- name: " ++ N) :: rest ++ [""]) ∧
    ("- name: " ++ N) ∈ joinPre ts ++ ("- name: " ++ N) :: rest ++ [""] ∧
    completionPreProcess false true 8 none FileType.tasks {}
        (joinPre ts ++ ("- name: " ++ N) :: rest ++ [""])
      = Except.ok (joinPre ts ++ ("- name: " ++ N) :: rest ++ [""]) := by
  have hdec := joinBlanks_concat_eq ts (quotedNameLine N :: rest)
  have hstripPre : ∀ l ∈ joinPre ts, stripQuotedName l = l := by
    intro l hl
    rcases mem_joinPre ts l hl with ⟨b, hb, hlb⟩ | he
    · exact (hts b hb).1 l hlb
    · rw [he]; rfl
  have hnm1 : isBlankLine ("- name: " ++ N) = false :=
    notBlank_of_head _ '-' (nameLineHead N) (by decide)
  have hnm2 : isCommentLine (trimSpaces ("- name: " ++ N)) = false :=
    notComment_trim_of_head _ '-' (nameLineHead N) (by decide) (by decide)
  -- the first run
  have hd1 : promptDiags 8 none
      ("---" :: joinBlanks (ts ++ [quotedNameLine N :: rest]) ++ ["", lastLine])
      = [] := by
    have hassoc : ("---" :: joinBlanks (ts ++ [quotedNameLine N :: rest])
        ++ ["", lastLine])
        = (("---" :: joinBlanks (ts ++ [quotedNameLine N :: rest])) ++ [""])
          ++ [lastLine] := by simp
    rw [hassoc]
    exact promptDiagsConcat 8 _ lastLine hlast1 hlast2
  have hnorm1 : normalizeLines (joinPre ts ++ quotedNameLine N :: rest ++ [""])
      = joinPre ts ++ ("- name: " ++ N) :: rest ++ [""] := by
    simp only [normalizeLines, List.map_append, List.map_cons, List.map_nil]
    rw [stripQuoted_eq]
    rw [show List.map stripQuotedName (joinPre ts) = joinPre ts from
      mapStripFixed _ hstripPre]
    rw [show List.map stripQuotedName rest = rest from
      mapStripFixed _ (fun l hl => (hrest l hl).1)]
    rfl
  have hrun1 : completionPreProcess false true 8 none FileType.tasks {}
      ("---" :: joinBlanks (ts ++ [quotedNameLine N :: rest]) ++ ["", lastLine])
      = Except.ok (joinPre ts ++ ("- name: " ++ N) :: rest ++ [""]) := by
    have hpass := passthroughRun false true 8 FileType.tasks {} _ (by decide) hd1
    have hm : removeMarker
        ("---" :: joinBlanks (ts ++ [quotedNameLine N :: rest]) ++ ["", lastLine])
        = joinBlanks (ts ++ [quotedNameLine N :: rest]) ++ ["", lastLine] := by
      rw [show ("---" :: joinBlanks (ts ++ [quotedNameLine N :: rest])
          ++ ["", lastLine])
          = "---" :: (joinBlanks (ts ++ [quotedNameLine N :: rest])
            ++ ["", lastLine]) from rfl]
      exact removeMarker_marker _
    have ht : removeTrailingLine
        (joinBlanks (ts ++ [quotedNameLine N :: rest]) ++ ["", lastLine])
        = joinBlanks (ts ++ [quotedNameLine N :: rest]) ++ [""] := by
      rw [show (joinBlanks (ts ++ [quotedNameLine N :: rest]) ++ ["", lastLine])
          = (joinBlanks (ts ++ [quotedNameLine N :: rest]) ++ [""]) ++ [lastLine]
          from by simp]
      rw [removeTrailing_concat _ _ hlast1]
    rw [hpass, hm, ht, hdec, hnorm1]
  refine ⟨hrun1, by simp, ?_⟩
  -- the second run
  have hd2 : promptDiags 8 none
      (joinPre ts ++ ("- name: " ++ N) :: rest ++ [""]) = [] := by
    apply promptDiagsNone 8 (joinPre ts) _ rest hnm1
    intro l hl
    rcases List.mem_cons.mp hl with h1 | h2
    · rw [h1]; exact hnm2
    · exact (hrest l h2).2
  have hm2 : removeMarker (joinPre ts ++ ("- name: " ++ N) :: rest ++ [""])
      = joinPre ts ++ ("- name: " ++ N) :: rest ++ [""] := by
    cases hts' : ts with
    | nil =>
      simp only [joinPre, List.nil_append]
      rw [show (("- name: " ++ N) :: rest ++ [""])
          = ("- name: " ++ N) :: (rest ++ [""]) from rfl]
      exact removeMarker_cons _ _ (nameLineNeMarker N)
    | cons b t =>
      have hb := hts b (by rw [hts']; exact List.mem_cons_self b t)
      cases hbv : b with
      | nil =>
        rw [hbv] at hb
        exact absurd hb.2 (by decide)
      | cons hb0 tb =>
        have hb0start : startsPlay hb0 = true := by
          have := hb.2
          rw [hbv] at this
          simpa using this
        simp only [joinPre, hbv]
        rw [show ((hb0 :: tb ++ "" :: joinPre t)
            ++ ("- name: " ++ N) :: rest ++ [""])
            = hb0 :: ((tb ++ "" :: joinPre t)
              ++ ("- name: " ++ N) :: rest ++ [""]) from by simp]
        exact removeMarker_cons _ _ (startsPlayNeMarker hb0 hb0start)
  have ht2 : removeTrailingLine (joinPre ts ++ ("- name: " ++ N) :: rest ++ [""])
      = joinPre ts ++ ("- name: " ++ N) :: rest ++ [""] :=
    removeTrailing_concat_blank (joinPre ts ++ ("- name: " ++ N) :: rest) ""
      rfl
  have hnorm2 : normalizeLines (joinPre ts ++ ("- name: " ++ N) :: rest ++ [""])
      = joinPre ts ++ ("- name: " ++ N) :: rest ++ [""] := by
    apply mapStripFixed
    intro l hl
    rcases List.mem_append.mp hl with h1 | h2
    · rcases List.mem_append.mp h1 with h1a | h1b
      · exact hstripPre l h1a
      · rcases List.mem_cons.mp h1b with h3 | h4
        · rw [h3]; exact stripUnquoted_eq N hN
        · exact (hrest l h4).1
    · rw [List.mem_singleton.mp h2]; rfl
  have hpass2 := passthroughRun false true 8 FileType.tasks {} _ (by decide) hd2
  rw [hpass2, hm2, ht2, hnorm2]

/-- Witness for C10 at the quoted-tasks fixture of
`test_quoted_singletask`: one retained task block with the quoted name
`import assert.yml`, the quoted incomplete line, and the unquoted,
stable output. -/
theorem c10_quoted_name_idempotent_witness :
    completionPreProcess false true 8 none FileType.tasks {}
        ("---" :: joinBlanks ([] ++ [quotedNameLine "import assert.yml" ::
          ["  ansible.builtin.import_tasks: assert.yml",
           "  run_once: true",
           "  delegate_to: localhost"]])
          ++ ["", quotedNameLine "install openvpn packages"])
      = Except.ok (joinPre [] ++ ("- name: " ++ "import assert.yml") ::
          ["  ansible.builtin.import_tasks: assert.yml",
           "  run_once: true",
           "  delegate_to: localhost"] ++ [""]) ∧
    ("- name: " ++ "import assert.yml") ∈ joinPre []
      ++ ("- name: " ++ "import assert.yml") ::
        ["  ansible.builtin.import_tasks: assert.yml",
         "  run_once: true",
         "  delegate_to: localhost"] ++ [""] ∧
    completionPreProcess false true 8 none FileType.tasks {}
        (joinPre [] ++ ("- name: " ++ "import assert.yml") ::
          ["  ansible.builtin.import_tasks: assert.yml",
           "  run_once: true",
           "  delegate_to: localhost"] ++ [""])
      = Except.ok (joinPre [] ++ ("- name: " ++ "import assert.yml") ::
          ["  ansible.builtin.import_tasks: assert.yml",
           "  run_once: true",
           "  delegate_to: localhost"] ++ [""]) :=
  c10_quoted_name_idempotent []
    "import assert.yml"
    ["  ansible.builtin.import_tasks: assert.yml",
     "  run_once: true",
     "  delegate_to: localhost"]
    (quotedNameLine "install openvpn packages")
    (by simp) (by decide) (by decide) (by decide) (by decide)

end PreProcess
